import Mathlib

/-!
# Reactive obstacle avoidance (`mr2_reactive_behaviors/src/reactive_iterative_internal.cpp`)

A shallow embedding of the `Avoidance` node: the stored scan, `scan_callback`,
and `control_cycle`, followed by the properties of the decision logic.

Modelling conventions.

* A `float` reading is a value of `F32`: not-a-number, one of the two
  infinities, or a finite value carried as an exact rational.  Comparisons
  follow IEEE 754 (every comparison with not-a-number is false).
* The `double` fields of the published `Twist` are exact rationals (every
  finite `double` is one).  The source constants are `float`s: `0.5` is a
  power of two and is stored exactly, while `0.2` is stored as the nearest
  single precision value, `13421773 / 2 ^ 26` (see `LINEAR_SPEED_nearest`).
  Widening a `float` to `double` is exact, and so are the sums `0 + 0.5`,
  `0.5 - 0.5` and `0 - 0.5`.
* `ranges` is a `std::vector<float>`, modelled as a list.  `operator[]` with an
  index that is not below `size()` has no defined behaviour; the model makes
  it an explicit fault.
* `ranges.size()` is a `size_t`.  The length of a vector of `float` never
  exceeds `PTRDIFF_MAX / 4`, so `size() * 5` does not wrap
  (see `size_mul5_no_wrap`) and the index arithmetic is done in `Nat`.
* The log line of `control_cycle` writes the three readings and has no effect
  on the state or on the published command; it is left out.
-/

namespace Reactive

/-- A single precision reading. -/
inductive F32 where
  | nan
  | negInf
  | posInf
  | finite (q : ℚ)
  deriving DecidableEq, Repr

namespace F32

/-- IEEE 754 `a < b` on readings. -/
def lt : F32 → F32 → Bool
  | finite p, finite q => decide (p < q)
  | finite _, posInf => true
  | negInf, finite _ => true
  | negInf, posInf => true
  | _, _ => false

/-- IEEE 754 `a >= b` on readings. -/
def ge : F32 → F32 → Bool
  | finite p, finite q => decide (q ≤ p)
  | posInf, finite _ => true
  | finite _, negInf => true
  | posInf, negInf => true
  | posInf, posInf => true
  | negInf, negInf => true
  | _, _ => false

end F32

/-- The three components of `geometry_msgs::msg::Vector3`. -/
structure Vector3 where
  x : ℚ := 0
  y : ℚ := 0
  z : ℚ := 0
  deriving DecidableEq, Repr

/-- The message `geometry_msgs::msg::Twist`; a fresh one is all zero. -/
structure Twist where
  linear : Vector3 := {}
  angular : Vector3 := {}
  deriving DecidableEq, Repr

/-- The part of `sensor_msgs::msg::LaserScan` that the node reads. -/
structure LaserScan where
  ranges : List F32
  deriving DecidableEq, Repr

/-- The state of the node: `last_scan_`, a null pointer until the first scan. -/
structure Avoidance where
  last_scan_ : Option LaserScan
  deriving DecidableEq, Repr

/-- What a faulting cycle did: `ranges[index]` with `index` not below `size`. -/
inductive Fault where
  | outOfBounds (index size : Nat)
  deriving DecidableEq, Repr

/-- The state right after the constructor: no scan stored. -/
def Avoidance.init : Avoidance := { last_scan_ := none }

/-- The method `scan_callback`: `last_scan_ = std::move(msg)`. -/
def Avoidance.scan_callback (self : Avoidance) (msg : LaserScan) : Avoidance :=
  { self with last_scan_ := some msg }

/-- The vector access `ranges[i]`. -/
def index (ranges : List F32) (i : Nat) : Except Fault F32 :=
  match ranges[i]? with
  | some r => .ok r
  | none => .error (.outOfBounds i ranges.length)

/-- The threshold `const float OBSTACLE_DISTANCE = 0.5`. -/
def OBSTACLE_DISTANCE : F32 := .finite 0.5

/-- The constant `const float LINEAR_SPEED = 0.2`: the single precision value
nearest to `0.2`, which is `13421773 / 2 ^ 26 = 0.20000000298023224`. -/
def LINEAR_SPEED : ℚ := 13421773 / 67108864

/-- The constant `const float ANGULAR_SPEED = 0.5`. -/
def ANGULAR_SPEED : ℚ := 0.5

/-- The method `control_cycle`.  The result is the state after the call and
the message handed to `vel_pub_->publish`, if any. -/
def Avoidance.control_cycle (self : Avoidance) : Except Fault (Avoidance × Option Twist) :=
  match self.last_scan_ with
  | none => .ok (self, none)
  | some last_scan => do
    let ranges := last_scan.ranges
    let read_front ← index ranges 0
    let read_left ← index ranges ((ranges.length * 5) / 6)
    let read_right ← index ranges (ranges.length / 6)
    let obstacle_front := F32.lt read_front OBSTACLE_DISTANCE
    let obstacle_left := F32.lt read_left OBSTACLE_DISTANCE
    let obstacle_right := F32.lt read_right OBSTACLE_DISTANCE
    let vel : Twist := {}
    let vel : Twist :=
      if !obstacle_front then { vel with linear.x := LINEAR_SPEED } else vel
    let vel : Twist :=
      if obstacle_left then { vel with angular.z := vel.angular.z + ANGULAR_SPEED } else vel
    let vel : Twist :=
      if obstacle_right then { vel with angular.z := vel.angular.z - ANGULAR_SPEED } else vel
    .ok (self, some vel)

/-- Consecutive timer ticks with no scan in between: the state after the last
one and the messages published, in order. -/
def Avoidance.run_cycles : Nat → Avoidance → Except Fault (Avoidance × List Twist)
  | 0, self => .ok (self, [])
  | n + 1, self => do
    let (self, out) ← self.control_cycle
    let (self, rest) ← run_cycles n self
    .ok (self, out.toList ++ rest)

/-- Twelve readings, all `1.0`: nothing nearby. -/
def scan_clear : LaserScan :=
  { ranges := [.finite 1, .finite 1, .finite 1, .finite 1, .finite 1, .finite 1,
      .finite 1, .finite 1, .finite 1, .finite 1, .finite 1, .finite 1] }

/-- Twelve readings, all `1.0` but index 0, which is `0.3`. -/
def scan_front : LaserScan :=
  { ranges := [.finite 0.3, .finite 1, .finite 1, .finite 1, .finite 1, .finite 1,
      .finite 1, .finite 1, .finite 1, .finite 1, .finite 1, .finite 1] }

/-- Twelve readings, all `1.0` but index 10, which is `0.2`. -/
def scan_left : LaserScan :=
  { ranges := [.finite 1, .finite 1, .finite 1, .finite 1, .finite 1, .finite 1,
      .finite 1, .finite 1, .finite 1, .finite 1, .finite 0.2, .finite 1] }

/-- Twelve readings, all `1.0` but index 2, which is `0.1`. -/
def scan_right : LaserScan :=
  { ranges := [.finite 1, .finite 1, .finite 0.1, .finite 1, .finite 1, .finite 1,
      .finite 1, .finite 1, .finite 1, .finite 1, .finite 1, .finite 1] }

/-- Twelve readings: not-a-number ahead, `0.1` at index 2, `0.2` at index 10. -/
def scan_both : LaserScan :=
  { ranges := [.nan, .finite 1, .finite 0.1, .finite 1, .finite 1, .finite 1,
      .finite 1, .finite 1, .finite 1, .finite 1, .finite 0.2, .finite 1] }

/-- A scan that carries no reading at all. -/
def scan_empty : LaserScan := { ranges := [] }

/-! ## Supporting lemmas -/

/-- On a machine whose `size_t` has `k + 1` bits, a length up to
`PTRDIFF_MAX / 4` can be multiplied by five without wrapping. -/
theorem size_mul5_no_wrap (k n : Nat) (h : n ≤ (2 ^ k - 1) / 4) :
    n * 5 % 2 ^ (k + 1) = n * 5 := by
  apply Nat.mod_eq_of_lt
  have h1 := Nat.div_mul_le_self (2 ^ k - 1) 4
  have h2 : 0 < 2 ^ k := Nat.two_pow_pos k
  have h3 : 2 ^ (k + 1) = 2 * 2 ^ k := by rw [pow_succ]; ring
  omega

/-- The value of `LINEAR_SPEED` is a single precision number (a 24 bit
significand times `2 ^ (-26)`) and lies within half a unit in the last place
of `0.2`, so it is what the literal `0.2` becomes in a `float`; it is not
`0.2` itself. -/
theorem LINEAR_SPEED_nearest :
    LINEAR_SPEED = 13421773 / 2 ^ 26 ∧ 2 ^ 23 ≤ 13421773 ∧ 13421773 < 2 ^ 24 ∧
    |LINEAR_SPEED - 0.2| < 1 / 2 ^ 27 ∧ LINEAR_SPEED ≠ 0.2 := by
  refine ⟨by norm_num [LINEAR_SPEED], by norm_num, by norm_num, ?_, by norm_num [LINEAR_SPEED]⟩
  rw [abs_lt]
  constructor <;> norm_num [LINEAR_SPEED]

theorem F32.lt_eq_false_of_ge {a b : F32} (h : F32.ge a b = true) : F32.lt a b = false := by
  cases a <;> cases b <;> simp_all [F32.ge, F32.lt]

theorem index_of_getElem? {ranges : List F32} {i : Nat} {r : F32}
    (h : ranges[i]? = some r) : index ranges i = .ok r := by
  simp [index, h]

/-- When the three readings exist, the cycle completes, keeps the state and
publishes the message built from the three threshold tests. -/
theorem control_cycle_of_readings (scan : LaserScan) (f l r : F32)
    (hf : scan.ranges[0]? = some f)
    (hl : scan.ranges[scan.ranges.length * 5 / 6]? = some l)
    (hr : scan.ranges[scan.ranges.length / 6]? = some r) :
    Avoidance.control_cycle { last_scan_ := some scan } =
      .ok ({ last_scan_ := some scan }, some
        { linear := { x := if F32.lt f OBSTACLE_DISTANCE then 0 else LINEAR_SPEED }
          angular := { z := (if F32.lt l OBSTACLE_DISTANCE then ANGULAR_SPEED else 0)
                          - (if F32.lt r OBSTACLE_DISTANCE then ANGULAR_SPEED else 0) } }) := by
  cases hF : F32.lt f OBSTACLE_DISTANCE <;> cases hL : F32.lt l OBSTACLE_DISTANCE <;>
    cases hR : F32.lt r OBSTACLE_DISTANCE <;>
    simp [Avoidance.control_cycle, index_of_getElem? hf, index_of_getElem? hl,
      index_of_getElem? hr, hF, hL, hR, bind, Except.bind]

/-- In a non-empty list the three positions read by the cycle are in range. -/
theorem indices_lt (n : Nat) (h : 1 ≤ n) : 0 < n ∧ n * 5 / 6 < n ∧ n / 6 < n := by
  refine ⟨h, ?_, ?_⟩ <;> omega

/-! ## The decision table -/

/-- C1, amended: for a stored scan of length at least six whose readings at
index 0, `N * 5 / 6` and `N / 6` are all at least `0.5`, the cycle publishes the
command with `linear.x = 13421773 / 67108864` (the `float` nearest to `0.2`,
widened to `double`) and `angular.z = 0` (every other component zero) and
keeps the state. -/
theorem clear_path_moves_forward (scan : LaserScan) (f l r : F32)
    (_hN : 6 ≤ scan.ranges.length)
    (hf : scan.ranges[0]? = some f)
    (hl : scan.ranges[scan.ranges.length * 5 / 6]? = some l)
    (hr : scan.ranges[scan.ranges.length / 6]? = some r)
    (hfront : F32.ge f (.finite 0.5) = true)
    (hleft : F32.ge l (.finite 0.5) = true)
    (hright : F32.ge r (.finite 0.5) = true) :
    Avoidance.control_cycle { last_scan_ := some scan } =
      .ok ({ last_scan_ := some scan },
        some { linear := { x := 13421773 / 67108864, y := 0, z := 0 }, angular := { x := 0, y := 0, z := 0 } }) := by
  rw [control_cycle_of_readings scan f l r hf hl hr]
  have h1 := F32.lt_eq_false_of_ge hfront
  have h2 := F32.lt_eq_false_of_ge hleft
  have h3 := F32.lt_eq_false_of_ge hright
  simp [OBSTACLE_DISTANCE, LINEAR_SPEED, h1, h2, h3]

/-- C1 at twelve readings of `1.0`. -/
theorem clear_path_moves_forward_witness :
    Avoidance.control_cycle { last_scan_ := some scan_clear } =
      .ok ({ last_scan_ := some scan_clear },
        some { linear := { x := 13421773 / 67108864, y := 0, z := 0 }, angular := { x := 0, y := 0, z := 0 } }) :=
  clear_path_moves_forward scan_clear (.finite 1) (.finite 1) (.finite 1)
    (by simp [scan_clear]) (by simp [scan_clear]) (by simp [scan_clear]) (by simp [scan_clear])
    (by norm_num [F32.ge]) (by norm_num [F32.ge]) (by norm_num [F32.ge])

/-- C1 as stated fails at twelve readings of `1.0`: the length is at least six
and the three readings are at least `0.5`, yet the published command is not the
one with `linear.x = 0.2`. -/
theorem clear_path_linear_is_not_decimal :
    (6 ≤ scan_clear.ranges.length ∧
      scan_clear.ranges[0]? = some (.finite 1) ∧
      scan_clear.ranges[scan_clear.ranges.length * 5 / 6]? = some (.finite 1) ∧
      scan_clear.ranges[scan_clear.ranges.length / 6]? = some (.finite 1) ∧
      F32.ge (.finite 1) (.finite 0.5) = true) ∧
    Avoidance.control_cycle { last_scan_ := some scan_clear } ≠
      .ok ({ last_scan_ := some scan_clear },
        some { linear := { x := 0.2, y := 0, z := 0 }, angular := { x := 0, y := 0, z := 0 } }) :=
  ⟨⟨by simp [scan_clear], by simp [scan_clear], by simp [scan_clear], by simp [scan_clear],
    by norm_num [F32.ge]⟩, by
    simp [Avoidance.control_cycle, scan_clear, index, F32.lt, OBSTACLE_DISTANCE, LINEAR_SPEED,
      ANGULAR_SPEED, bind, Except.bind]
    norm_num⟩

/-- C2: for a stored scan whose reading at index 0 is below `0.5` while those
at `N * 5 / 6` and `N / 6` are at least `0.5`, the cycle publishes the all-zero
command (`linear.x = 0`, `angular.z = 0`) and keeps the state. -/
theorem front_obstacle_stops (scan : LaserScan) (f l r : F32)
    (hf : scan.ranges[0]? = some f)
    (hl : scan.ranges[scan.ranges.length * 5 / 6]? = some l)
    (hr : scan.ranges[scan.ranges.length / 6]? = some r)
    (hfront : F32.lt f (.finite 0.5) = true)
    (hleft : F32.ge l (.finite 0.5) = true)
    (hright : F32.ge r (.finite 0.5) = true) :
    Avoidance.control_cycle { last_scan_ := some scan } =
      .ok ({ last_scan_ := some scan },
        some { linear := { x := 0, y := 0, z := 0 }, angular := { x := 0, y := 0, z := 0 } }) := by
  rw [control_cycle_of_readings scan f l r hf hl hr]
  have h2 := F32.lt_eq_false_of_ge hleft
  have h3 := F32.lt_eq_false_of_ge hright
  simp [OBSTACLE_DISTANCE, hfront, h2, h3]

/-- C2 at the scan of the specification: twelve readings, all `1.0` but index
0, which is `0.3`. -/
theorem front_obstacle_stops_witness :
    Avoidance.control_cycle { last_scan_ := some scan_front } =
      .ok ({ last_scan_ := some scan_front },
        some { linear := { x := 0, y := 0, z := 0 }, angular := { x := 0, y := 0, z := 0 } }) :=
  front_obstacle_stops scan_front (.finite 0.3) (.finite 1) (.finite 1)
    (by simp [scan_front]) (by simp [scan_front]) (by simp [scan_front])
    (by norm_num [F32.lt]) (by norm_num [F32.ge]) (by norm_num [F32.ge])

/-- C3, amended: for a stored scan whose reading at `N * 5 / 6` is below `0.5`
while those at index 0 and `N / 6` are at least `0.5`, the cycle publishes the
command with `angular.z = 0.5` and `linear.x = 13421773 / 67108864` (the
`float` nearest to `0.2`, widened to `double`) and keeps the state. -/
theorem left_obstacle_turns_positive (scan : LaserScan) (f l r : F32)
    (hf : scan.ranges[0]? = some f)
    (hl : scan.ranges[scan.ranges.length * 5 / 6]? = some l)
    (hr : scan.ranges[scan.ranges.length / 6]? = some r)
    (hfront : F32.ge f (.finite 0.5) = true)
    (hleft : F32.lt l (.finite 0.5) = true)
    (hright : F32.ge r (.finite 0.5) = true) :
    Avoidance.control_cycle { last_scan_ := some scan } =
      .ok ({ last_scan_ := some scan },
        some { linear := { x := 13421773 / 67108864, y := 0, z := 0 }, angular := { x := 0, y := 0, z := 0.5 } }) := by
  rw [control_cycle_of_readings scan f l r hf hl hr]
  have h1 := F32.lt_eq_false_of_ge hfront
  have h3 := F32.lt_eq_false_of_ge hright
  simp [OBSTACLE_DISTANCE, LINEAR_SPEED, ANGULAR_SPEED, h1, hleft, h3]

/-- C3 at the scan of the specification: twelve readings, all `1.0` but index
10, which is `0.2`. -/
theorem left_obstacle_turns_positive_witness :
    Avoidance.control_cycle { last_scan_ := some scan_left } =
      .ok ({ last_scan_ := some scan_left },
        some { linear := { x := 13421773 / 67108864, y := 0, z := 0 }, angular := { x := 0, y := 0, z := 0.5 } }) :=
  left_obstacle_turns_positive scan_left (.finite 1) (.finite 0.2) (.finite 1)
    (by simp [scan_left]) (by simp [scan_left]) (by simp [scan_left])
    (by norm_num [F32.ge]) (by norm_num [F32.lt]) (by norm_num [F32.ge])

/-- C3 as stated fails at the scan of the specification (twelve readings, all
`1.0` but index 10, which is `0.2`): only the left reading is below `0.5`, yet
the published command is not the one with `linear.x = 0.2`, `angular.z = 0.5`. -/
theorem left_obstacle_linear_is_not_decimal :
    (scan_left.ranges[0]? = some (.finite 1) ∧
      scan_left.ranges[scan_left.ranges.length * 5 / 6]? = some (.finite 0.2) ∧
      scan_left.ranges[scan_left.ranges.length / 6]? = some (.finite 1) ∧
      F32.ge (.finite 1) (.finite 0.5) = true ∧
      F32.lt (.finite 0.2) (.finite 0.5) = true) ∧
    Avoidance.control_cycle { last_scan_ := some scan_left } ≠
      .ok ({ last_scan_ := some scan_left },
        some { linear := { x := 0.2, y := 0, z := 0 }, angular := { x := 0, y := 0, z := 0.5 } }) :=
  ⟨⟨by simp [scan_left], by simp [scan_left], by simp [scan_left],
    by norm_num [F32.ge], by norm_num [F32.lt]⟩, by
    simp [Avoidance.control_cycle, scan_left, index, F32.lt, OBSTACLE_DISTANCE, LINEAR_SPEED,
      ANGULAR_SPEED, bind, Except.bind]
    norm_num⟩

/-- C4, amended: for a stored scan whose reading at `N / 6` is below `0.5`
while those at index 0 and `N * 5 / 6` are at least `0.5`, the cycle publishes
the command with `angular.z = -0.5` and `linear.x = 13421773 / 67108864` (the
`float` nearest to `0.2`, widened to `double`) and keeps the state. -/
theorem right_obstacle_turns_negative (scan : LaserScan) (f l r : F32)
    (hf : scan.ranges[0]? = some f)
    (hl : scan.ranges[scan.ranges.length * 5 / 6]? = some l)
    (hr : scan.ranges[scan.ranges.length / 6]? = some r)
    (hfront : F32.ge f (.finite 0.5) = true)
    (hleft : F32.ge l (.finite 0.5) = true)
    (hright : F32.lt r (.finite 0.5) = true) :
    Avoidance.control_cycle { last_scan_ := some scan } =
      .ok ({ last_scan_ := some scan },
        some { linear := { x := 13421773 / 67108864, y := 0, z := 0 }, angular := { x := 0, y := 0, z := -0.5 } }) := by
  rw [control_cycle_of_readings scan f l r hf hl hr]
  have h1 := F32.lt_eq_false_of_ge hfront
  have h2 := F32.lt_eq_false_of_ge hleft
  simp [OBSTACLE_DISTANCE, LINEAR_SPEED, ANGULAR_SPEED, h1, h2, hright]

/-- C4 at the scan of the specification: twelve readings, all `1.0` but index
2, which is `0.1`. -/
theorem right_obstacle_turns_negative_witness :
    Avoidance.control_cycle { last_scan_ := some scan_right } =
      .ok ({ last_scan_ := some scan_right },
        some { linear := { x := 13421773 / 67108864, y := 0, z := 0 }, angular := { x := 0, y := 0, z := -0.5 } }) :=
  right_obstacle_turns_negative scan_right (.finite 1) (.finite 1) (.finite 0.1)
    (by simp [scan_right]) (by simp [scan_right]) (by simp [scan_right])
    (by norm_num [F32.ge]) (by norm_num [F32.ge]) (by norm_num [F32.lt])

/-- C4 as stated fails at the scan of the specification (twelve readings, all
`1.0` but index 2, which is `0.1`): only the right reading is below `0.5`, yet
the published command is not the one with `linear.x = 0.2`, `angular.z = -0.5`. -/
theorem right_obstacle_linear_is_not_decimal :
    (scan_right.ranges[0]? = some (.finite 1) ∧
      scan_right.ranges[scan_right.ranges.length * 5 / 6]? = some (.finite 1) ∧
      scan_right.ranges[scan_right.ranges.length / 6]? = some (.finite 0.1) ∧
      F32.ge (.finite 1) (.finite 0.5) = true ∧
      F32.lt (.finite 0.1) (.finite 0.5) = true) ∧
    Avoidance.control_cycle { last_scan_ := some scan_right } ≠
      .ok ({ last_scan_ := some scan_right },
        some { linear := { x := 0.2, y := 0, z := 0 }, angular := { x := 0, y := 0, z := -0.5 } }) :=
  ⟨⟨by simp [scan_right], by simp [scan_right], by simp [scan_right],
    by norm_num [F32.ge], by norm_num [F32.lt]⟩, by
    simp [Avoidance.control_cycle, scan_right, index, F32.lt, OBSTACLE_DISTANCE, LINEAR_SPEED,
      ANGULAR_SPEED, bind, Except.bind]
    norm_num⟩

/-- C5: for a stored scan whose readings at `N * 5 / 6` and at `N / 6` are both
below `0.5`, whatever is read at index 0, the cycle publishes a command whose
`angular.z` is exactly 0. -/
theorem both_sides_cancel (scan : LaserScan) (l r : F32)
    (hl : scan.ranges[scan.ranges.length * 5 / 6]? = some l)
    (hr : scan.ranges[scan.ranges.length / 6]? = some r)
    (hleft : F32.lt l (.finite 0.5) = true)
    (hright : F32.lt r (.finite 0.5) = true) :
    ∃ vel : Twist,
      Avoidance.control_cycle { last_scan_ := some scan } =
        .ok ({ last_scan_ := some scan }, some vel) ∧
      vel.angular.z = 0 := by
  have hlen : 0 < scan.ranges.length := by
    have h := (List.getElem?_eq_some.mp hr).1
    omega
  have hf : scan.ranges[0]? = some (scan.ranges.get ⟨0, hlen⟩) := by
    simp [List.getElem?_eq_getElem hlen]
  refine ⟨_, control_cycle_of_readings scan _ l r hf hl hr, ?_⟩
  simp [OBSTACLE_DISTANCE, hleft, hright]

/-- C5 at twelve readings with `0.2` at index 10, `0.1` at index 2 and
not-a-number ahead: a command with `angular.z = 0` is published, and it is the
one with `linear.x = 13421773 / 67108864`. -/
theorem both_sides_cancel_witness :
    (∃ vel : Twist,
      Avoidance.control_cycle { last_scan_ := some scan_both } =
        .ok ({ last_scan_ := some scan_both }, some vel) ∧
      vel.angular.z = 0) ∧
    Avoidance.control_cycle { last_scan_ := some scan_both } =
      .ok ({ last_scan_ := some scan_both },
        some { linear := { x := 13421773 / 67108864, y := 0, z := 0 }, angular := { x := 0, y := 0, z := 0 } }) :=
  ⟨both_sides_cancel scan_both (.finite 0.2) (.finite 0.1)
    (by simp [scan_both]) (by simp [scan_both])
    (by norm_num [F32.lt]) (by norm_num [F32.lt]),
   by
    simp [Avoidance.control_cycle, scan_both, index, F32.lt, OBSTACLE_DISTANCE, LINEAR_SPEED,
      ANGULAR_SPEED, bind, Except.bind]
    norm_num⟩

/-! ## Guards -/

/-- C6: in the initial state a cycle publishes nothing and returns the initial
state, and so does any number of consecutive cycles. -/
theorem no_scan_no_command :
    Avoidance.control_cycle Avoidance.init = .ok (Avoidance.init, none) ∧
    ∀ n : Nat, Avoidance.run_cycles n Avoidance.init = .ok (Avoidance.init, []) := by
  have h1 : Avoidance.control_cycle Avoidance.init = .ok (Avoidance.init, none) := rfl
  refine ⟨h1, ?_⟩
  intro n
  induction n with
  | zero => rfl
  | succ k ih => simp [Avoidance.run_cycles, h1, ih, bind, Except.bind]

/-- C7: once a scan with an empty `ranges` is stored, whatever the state was
before, the cycle reads `ranges[0]` of a vector of size 0: the access is out of
bounds and nothing guards it. -/
theorem empty_ranges_reads_out_of_bounds (self : Avoidance) :
    Avoidance.control_cycle (self.scan_callback scan_empty) =
      .error (.outOfBounds 0 0) := by
  rfl

/-! ## State -/

/-- C8: a cycle that completes returns the state it was given; running a second
cycle right after the first gives the result of the first; and two consecutive
cycles publish the command of one cycle twice (or nothing twice). -/
theorem control_cycle_idempotent (self : Avoidance) :
    (self.control_cycle.map fun p => p.1) = (self.control_cycle.map fun _ => self) ∧
    (self.control_cycle >>= fun p => p.1.control_cycle) = self.control_cycle ∧
    Avoidance.run_cycles 2 self =
      self.control_cycle.map fun p => (self, p.2.toList ++ p.2.toList) := by
  have key : ∀ s out, self.control_cycle = .ok (s, out) → s = self := by
    intro s out h
    unfold Avoidance.control_cycle at h
    split at h
    · cases h; rfl
    · simp only [bind, Except.bind] at h
      repeat (split at h <;> try cases h)
      rfl
  cases hc : self.control_cycle with
  | error e => simp [Avoidance.run_cycles, hc, bind, Except.bind, Except.map]
  | ok p =>
    obtain ⟨s, out⟩ := p
    have hs := key s out hc
    subst hs
    simp [Avoidance.run_cycles, hc, bind, Except.bind, Except.map]

/-- C9: `scan_callback` stores the scan it is given, whatever was stored
before; after one or more scans delivered from any prior state the stored scan
is the last one, `sk`, exactly as in a fresh node given `sk` alone, and so the
next cycle gives the result computed from `sk` on a fresh node. -/
theorem last_scan_wins (prior : Avoidance) (scans : List LaserScan) (sk : LaserScan) :
    (prior.scan_callback sk).last_scan_ = some sk ∧
    (scans ++ [sk]).foldl Avoidance.scan_callback prior = { last_scan_ := some sk } ∧
    Avoidance.init.scan_callback sk = { last_scan_ := some sk } ∧
    Avoidance.control_cycle ((scans ++ [sk]).foldl Avoidance.scan_callback prior) =
      Avoidance.control_cycle (Avoidance.init.scan_callback sk) ∧
    Avoidance.control_cycle ((scans ++ [sk]).foldl Avoidance.scan_callback prior) =
      Avoidance.control_cycle { last_scan_ := some sk } := by
  have h : (scans ++ [sk]).foldl Avoidance.scan_callback prior = { last_scan_ := some sk } := by
    simp [List.foldl_append, Avoidance.scan_callback]
  have h0 : Avoidance.init.scan_callback sk = { last_scan_ := some sk } := rfl
  exact ⟨rfl, h, h0, by rw [h, h0], by rw [h]⟩

/-- C10: when the stored scan has at least one reading, the positions 0,
`N * 5 / 6` and `N / 6` are all below `N`, and the cycle completes with exactly
one published command and the state unchanged. -/
theorem nonempty_scan_publishes (scan : LaserScan) (h : 1 ≤ scan.ranges.length) :
    (0 < scan.ranges.length ∧ scan.ranges.length * 5 / 6 < scan.ranges.length ∧
      scan.ranges.length / 6 < scan.ranges.length) ∧
    ∃ vel : Twist, Avoidance.control_cycle { last_scan_ := some scan } =
      .ok ({ last_scan_ := some scan }, some vel) := by
  have hi := indices_lt scan.ranges.length h
  refine ⟨hi, _, control_cycle_of_readings scan _ _ _
    (List.getElem?_eq_getElem hi.1) (List.getElem?_eq_getElem hi.2.1)
    (List.getElem?_eq_getElem hi.2.2)⟩

/-- C10 at a scan with a single reading, not-a-number: all three positions are
0 and a command is published. -/
theorem nonempty_scan_publishes_witness :
    ((0 < 1 ∧ 1 * 5 / 6 < 1 ∧ 1 / 6 < 1) ∧
    ∃ vel : Twist, Avoidance.control_cycle { last_scan_ := some { ranges := [.nan] } } =
      .ok ({ last_scan_ := some { ranges := [.nan] } }, some vel)) :=
  nonempty_scan_publishes { ranges := [.nan] } (by simp)

end Reactive
